import Mathlib

/-!
Shallow embedding of `third_party/github.com/honeycombio/opencensus-exporter/
honeycomb/honeycomb.go`: a trace exporter that maps OpenCensus span records
(and their attached annotations) to flat Honeycomb events.

Modelling conventions:
* Go `time.Time` values are modelled as `Int` nanoseconds since the epoch;
  the zero `time.Time` (for which `IsZero` is true) is modelled as `0`.
  `e.Sub(s)` is exact integer subtraction in nanoseconds.
* Go `float64` values (`SampleFraction`, `DurationMs`) are modelled as `ℚ`
  with exact arithmetic.
* OpenCensus `trace.TraceID` (`[16]byte`) and `trace.SpanID` (`[8]byte`) are
  modelled as `Nat`; their `String()` methods are lowercase fixed-width hex
  encodings, implemented below.  The zero-valued ID is `0`.
* A libhoney event is modelled by its observable state at this module's
  boundary: the event-level `Timestamp`, the optionally assigned
  `SampleRate` (`none` means this module never assigned it, leaving the
  builder's default untouched), and the ordered sequence of dynamic fields
  produced by `AddField` / `Add` calls.
* Heterogeneous field values (`interface{}` in Go) are a small variant type
  `FieldValue`.
-/

namespace Honeycomb

/-- Dynamic field values attached to an event (`interface{}` in Go). -/
inductive FieldValue where
  | str (s : String)
  | int (n : Int)
  | bool (b : Bool)
  | rat (q : ℚ)
  | time (t : Int)
  deriving DecidableEq, Repr

/-- Embeds `trace.Status`: a status code and message attached to a span. -/
structure Status where
  code : Int
  message : String
  deriving DecidableEq, Repr

/-- Embeds `trace.Annotation` (the input record produced by the tracing runtime):
a timestamp, a message, and a set of key-value attributes. -/
structure AnnotationRecord where
  time : Int
  message : String
  attributes : List (String × FieldValue)
  deriving DecidableEq, Repr

/-- Embeds `trace.SpanData`: the completed span record handed to `ExportSpan`.
`traceID` and `spanID` come from the embedded `SpanContext`. -/
structure SpanData where
  traceID : Nat
  spanID : Nat
  parentSpanID : Nat
  name : String
  startTime : Int
  endTime : Int
  attributes : List (String × FieldValue)
  status : Status
  annotations : List AnnotationRecord
  deriving DecidableEq, Repr

/-- Embeds `honeycomb.Exporter` (the `Builder` is the external libhoney collaborator
and carries no state observed by this module's logic). -/
structure Exporter where
  sampleFraction : ℚ
  serviceName : String
  deriving DecidableEq, Repr

/-- Embeds `honeycomb.Span`: the span-shaped output record.  `parentID` is `Option`
because the Go code only assigns it when `ParentSpanID` is non-zero and its
JSON tag is `trace.parent_id,omitempty` (absent when never assigned). -/
structure Span where
  traceID : String
  name : String
  id : String
  parentID : Option String
  durationMs : ℚ
  timestamp : Int
  deriving DecidableEq, Repr

/-- Embeds `honeycomb.Annotation`: the output record embedded into annotation
events (JSON fields `name`, `trace.trace_id`, `trace.parent_id`,
`timestamp`, none of them `omitempty`). -/
structure AnnotationEvent where
  name : String
  traceID : String
  parentID : String
  timestamp : Int
  deriving DecidableEq, Repr

/-- A libhoney event as observed at this module's boundary. -/
structure Event where
  timestamp : Int
  sampleRate : Option Nat
  fields : List (String × FieldValue)
  deriving DecidableEq, Repr

/-- Embeds `libhoney.Builder.NewEvent()`: a fresh event; no sample rate has been
assigned by this module and no fields have been added. -/
def newEvent : Event := { timestamp := 0, sampleRate := none, fields := [] }

/-- Embeds `ev.AddField(key, value)`. -/
def addField (ev : Event) (key : String) (value : FieldValue) : Event :=
  { ev with fields := ev.fields ++ [(key, value)] }

/-- One lowercase hex digit. -/
def hexDigitChar (n : Nat) : Char :=
  if n < 10 then Char.ofNat (48 + n) else Char.ofNat (87 + n)

/-- Fixed-width big-endian lowercase hex digits of `n` (width `w`). -/
def hexChars : Nat → Nat → List Char
  | 0, _ => []
  | w + 1, n => hexChars w (n / 16) ++ [hexDigitChar (n % 16)]

/-- Fixed-width lowercase hex encoding, as produced by
`hex.EncodeToString` on a big-endian byte array. -/
def hexString (w n : Nat) : String := ⟨hexChars w n⟩

/-- Embeds `trace.TraceID.String()`: 16 bytes, 32 hex characters. -/
def traceIDString (t : Nat) : String := hexString 32 t

/-- Embeds `trace.SpanID.String()`: 8 bytes, 16 hex characters. -/
def spanIDString (s : Nat) : String := hexString 16 s

/-- Go's `uint(x)` conversion of a `float64`: truncation toward zero.  All
values converted by this module are nonnegative (`1 / SampleFraction` with
the documented contract `0 < SampleFraction ≤ 1`), where truncation toward
zero coincides with the floor. -/
def goUint (q : ℚ) : Nat := (Rat.floor q).toNat

/-- Embeds `honeycombSpan`: builds the span-shaped output record.  The struct
literal leaves `ParentID` unassigned (absent) and `DurationMs` at the zero
value `0`; the two `if` statements then assign them conditionally. -/
def honeycombSpan (s : SpanData) : Span :=
  let base : Span :=
    { traceID := traceIDString s.traceID
      id := spanIDString s.spanID
      name := s.name
      timestamp := s.startTime
      parentID := none
      durationMs := 0 }
  let withParent : Span :=
    if s.parentSpanID ≠ 0 then
      { base with parentID := some (spanIDString s.parentSpanID) }
    else base
  if s.startTime ≠ 0 ∧ s.endTime ≠ 0 then
    { withParent with
        durationMs := ((s.endTime - s.startTime : Int) : ℚ) / 1000000 }
  else withParent

/-- Modelled from the spec: the flattening of a `honeycomb.Span` into event
fields is performed by the external event client's `ev.Add`, whose code is
not part of this repository.  Field names and the `omitempty` markers come
from the struct tags in `honeycomb.go`; per the spec's wire schema,
`trace.parent_id` is omitted if empty (never assigned) and `timestamp` is
omitted if zero. -/
def spanStructFields (hs : Span) : List (String × FieldValue) :=
  [("trace.trace_id", FieldValue.str hs.traceID),
   ("name", FieldValue.str hs.name),
   ("trace.span_id", FieldValue.str hs.id)]
  ++ (match hs.parentID with
      | some p => [("trace.parent_id", FieldValue.str p)]
      | none => [])
  ++ [("duration_ms", FieldValue.rat hs.durationMs)]
  ++ (if hs.timestamp = 0 then [] else [("timestamp", FieldValue.time hs.timestamp)])

/-- The flattening of a `honeycomb.Annotation` by `ev.Add`: no field is
`omitempty`, so all four are always present, in struct order. -/
def annotStructFields (ha : AnnotationEvent) : List (String × FieldValue) :=
  [("name", FieldValue.str ha.name),
   ("trace.trace_id", FieldValue.str ha.traceID),
   ("trace.parent_id", FieldValue.str ha.parentID),
   ("timestamp", FieldValue.time ha.timestamp)]

/-- Embeds `exportAnnotation`: builds (and sends, pre-sampled) one
annotation-shaped event for annotation `a` of span `sd`. -/
def exportAnnotationEvent (e : Exporter) (sd : SpanData)
    (a : AnnotationRecord) : Event :=
  let ev := newEvent
  let ev := if e.sampleFraction ≠ 0 then
      { ev with sampleRate := some (goUint (1 / e.sampleFraction)) }
    else ev
  let ev := if e.serviceName ≠ "" then
      addField ev "service_name" (FieldValue.str e.serviceName)
    else ev
  let ev := { ev with timestamp := a.time }
  let ha : AnnotationEvent :=
    { name := a.message
      traceID := traceIDString sd.traceID
      parentID := spanIDString sd.spanID
      timestamp := a.time }
  let ev := { ev with fields := ev.fields ++ annotStructFields ha }
  let ev := addField ev "trace.annotation" (FieldValue.bool true)
  let ev := { ev with fields := ev.fields ++ a.attributes }
  ev

/-- The span-shaped event built inside `ExportSpan` before
`SendPresampled`.  The Go guard `len(sd.Attributes) != 0` around the
attribute loop is a no-op for empty maps, so the attributes are appended
unconditionally. -/
def spanEvent (e : Exporter) (sd : SpanData) : Event :=
  let ev := newEvent
  let ev := if e.sampleFraction ≠ 0 then
      { ev with sampleRate := some (goUint (1 / e.sampleFraction)) }
    else ev
  let ev := if e.serviceName ≠ "" then
      addField ev "service_name" (FieldValue.str e.serviceName)
    else ev
  let ev := { ev with timestamp := sd.startTime }
  let hs := honeycombSpan sd
  let ev := { ev with fields := ev.fields ++ spanStructFields hs }
  let ev := { ev with fields := ev.fields ++ sd.attributes }
  let ev := if sd.status.code ≠ 0 then
      addField ev "status_code" (FieldValue.int sd.status.code)
    else ev
  let ev := if sd.status.message ≠ "" then
      addField ev "status_description" (FieldValue.str sd.status.message)
    else ev
  ev

/-- Embeds `ExportSpan`: the ordered sequence of events sent (pre-sampled) for one
span record: the span-shaped event, then one annotation-shaped event per
annotation, in order. -/
def ExportSpan (e : Exporter) (sd : SpanData) : List Event :=
  spanEvent e sd :: sd.annotations.map (exportAnnotationEvent e sd)

/-! Concrete sample inputs used by witnesses and counterexamples. -/

/-- A sample annotation record. -/
def annEx : AnnotationRecord :=
  { time := 7, message := "note", attributes := [("k", FieldValue.str "v")] }

/-- A sample span record (close to the worked example of the spec):
150 ms duration, a parent, one attribute, non-zero status, one
annotation. -/
def sdEx : SpanData :=
  { traceID := 1
    spanID := 2
    parentSpanID := 3
    name := "op"
    startTime := 1000000000
    endTime := 1150000000
    attributes := [("http.status", FieldValue.int 200)]
    status := { code := 5, message := "boom" }
    annotations := [annEx] }

/-- A span record with zero start time, no parent, zero status and no
attributes. -/
def sdZero : SpanData :=
  { traceID := 1
    spanID := 2
    parentSpanID := 0
    name := "op"
    startTime := 0
    endTime := 1150000000
    attributes := []
    status := { code := 0, message := "" }
    annotations := [] }

/-- A span record whose end time precedes its start time. -/
def sdNeg : SpanData :=
  { traceID := 1
    spanID := 2
    parentSpanID := 0
    name := "op"
    startTime := 2000000000
    endTime := 1000000000
    attributes := []
    status := { code := 0, message := "" }
    annotations := [] }

/-- Exporter with a sample fraction whose reciprocal is not an integer. -/
def exC1 : Exporter := { sampleFraction := 5/8, serviceName := "" }

/-- Exporter with sample fraction 1/4 and a service name. -/
def exW1 : Exporter := { sampleFraction := 1/4, serviceName := "svc" }

/-- Exporter with sample fraction 0 and no service name. -/
def exZero : Exporter := { sampleFraction := 0, serviceName := "" }

end Honeycomb

namespace Honeycomb

/-! Helper lemmas: normal forms for the event builders. -/

theorem goUint_eq (q : ℚ) : goUint q = (⌊q⌋).toNat := rfl

theorem honeycombSpan_eq (sd : SpanData) :
    honeycombSpan sd =
      { traceID := traceIDString sd.traceID
        id := spanIDString sd.spanID
        name := sd.name
        timestamp := sd.startTime
        parentID := if sd.parentSpanID ≠ 0 then
            some (spanIDString sd.parentSpanID)
          else none
        durationMs := if sd.startTime ≠ 0 ∧ sd.endTime ≠ 0 then
            ((sd.endTime - sd.startTime : Int) : ℚ) / 1000000
          else 0 } := by
  unfold honeycombSpan
  split_ifs <;> rfl

theorem spanEvent_sampleRate (e : Exporter) (sd : SpanData) :
    (spanEvent e sd).sampleRate =
      if e.sampleFraction ≠ 0 then some (goUint (1 / e.sampleFraction))
      else none := by
  unfold spanEvent newEvent addField
  split_ifs <;> rfl

theorem exportAnnotationEvent_sampleRate (e : Exporter) (sd : SpanData)
    (a : AnnotationRecord) :
    (exportAnnotationEvent e sd a).sampleRate =
      if e.sampleFraction ≠ 0 then some (goUint (1 / e.sampleFraction))
      else none := by
  unfold exportAnnotationEvent newEvent addField
  split_ifs <;> rfl

theorem spanEvent_fields (e : Exporter) (sd : SpanData) :
    (spanEvent e sd).fields =
      (if e.serviceName ≠ "" then
          [("service_name", FieldValue.str e.serviceName)]
        else [])
      ++ spanStructFields (honeycombSpan sd)
      ++ sd.attributes
      ++ (if sd.status.code ≠ 0 then
            [("status_code", FieldValue.int sd.status.code)]
          else [])
      ++ (if sd.status.message ≠ "" then
            [("status_description", FieldValue.str sd.status.message)]
          else []) := by
  unfold spanEvent newEvent addField
  split_ifs <;> simp

theorem exportAnnotationEvent_fields (e : Exporter) (sd : SpanData)
    (a : AnnotationRecord) :
    (exportAnnotationEvent e sd a).fields =
      (if e.serviceName ≠ "" then
          [("service_name", FieldValue.str e.serviceName)]
        else [])
      ++ annotStructFields
          { name := a.message
            traceID := traceIDString sd.traceID
            parentID := spanIDString sd.spanID
            timestamp := a.time }
      ++ [("trace.annotation", FieldValue.bool true)]
      ++ a.attributes := by
  unfold exportAnnotationEvent newEvent addField
  split_ifs <;> simp

theorem mem_ExportSpan (e : Exporter) (sd : SpanData) (ev : Event) :
    ev ∈ ExportSpan e sd ↔
      ev = spanEvent e sd ∨
      ∃ a ∈ sd.annotations, ev = exportAnnotationEvent e sd a := by
  unfold ExportSpan
  simp [eq_comm]

theorem honeycombSpan_durationMs (sd : SpanData) :
    (honeycombSpan sd).durationMs =
      if sd.startTime ≠ 0 ∧ sd.endTime ≠ 0 then
        ((sd.endTime - sd.startTime : Int) : ℚ) / 1000000
      else 0 := by
  rw [honeycombSpan_eq]

theorem honeycombSpan_parentID (sd : SpanData) :
    (honeycombSpan sd).parentID =
      if sd.parentSpanID ≠ 0 then some (spanIDString sd.parentSpanID)
      else none := by
  rw [honeycombSpan_eq]

theorem spanStructFields_honeycombSpan (sd : SpanData) :
    spanStructFields (honeycombSpan sd) =
      [("trace.trace_id", FieldValue.str (traceIDString sd.traceID)),
       ("name", FieldValue.str sd.name),
       ("trace.span_id", FieldValue.str (spanIDString sd.spanID))]
      ++ (if sd.parentSpanID ≠ 0 then
            [("trace.parent_id", FieldValue.str (spanIDString sd.parentSpanID))]
          else [])
      ++ [("duration_ms", FieldValue.rat (honeycombSpan sd).durationMs)]
      ++ (if sd.startTime = 0 then []
          else [("timestamp", FieldValue.time sd.startTime)]) := by
  rw [honeycombSpan_durationMs]
  conv_lhs => rw [honeycombSpan_eq]
  unfold spanStructFields
  by_cases hp : sd.parentSpanID = 0 <;> simp [hp]

/-! Claim theorems. -/

/-- Claim C1 as frozen is false at SampleFraction 5/8 (non-zero): the
span event emitted by ExportSpan carries SampleRate uint(1/(5/8)) = 1,
while round(1/(5/8)) = round(8/5) = 2.  Go's uint conversion truncates
toward zero; it does not round. -/
theorem C1_round_counterexample :
    exC1.sampleFraction ≠ 0 ∧
    (ExportSpan exC1 sdEx).head? = some (spanEvent exC1 sdEx) ∧
    (spanEvent exC1 sdEx).sampleRate = some 1 ∧
    (round ((1 : ℚ) / exC1.sampleFraction)).toNat = 2 := by
  refine ⟨by norm_num [exC1], rfl, ?_, ?_⟩
  · rw [spanEvent_sampleRate,
      if_pos (show exC1.sampleFraction ≠ 0 by norm_num [exC1]), goUint_eq]
    norm_num [exC1]
  · norm_num [exC1, round_eq]
    decide

/-- Claim C1 (amended): for every exporter whose SampleFraction is
positive, both ExportSpan and exportAnnotation set the emitted event's
SampleRate to the truncation toward zero of 1/SampleFraction — that is,
⌊1/SampleFraction⌋, Go's uint conversion — not to round(1/SampleFraction). -/
theorem C1_sampleRate_truncated (e : Exporter) (sd : SpanData)
    (a : AnnotationRecord) (hf : 0 < e.sampleFraction) :
    (∀ ev ∈ ExportSpan e sd,
        ev.sampleRate = some ((⌊(1 : ℚ) / e.sampleFraction⌋).toNat)) ∧
    (exportAnnotationEvent e sd a).sampleRate
      = some ((⌊(1 : ℚ) / e.sampleFraction⌋).toNat) := by
  have hne : e.sampleFraction ≠ 0 := ne_of_gt hf
  refine ⟨?_, by rw [exportAnnotationEvent_sampleRate, if_pos hne, goUint_eq]⟩
  intro ev hev
  rcases (mem_ExportSpan e sd ev).mp hev with h | ⟨a', _, h⟩
  · rw [h, spanEvent_sampleRate, if_pos hne, goUint_eq]
  · rw [h, exportAnnotationEvent_sampleRate, if_pos hne, goUint_eq]

/-- Witness for C1 (amended) at SampleFraction 1/4: SampleRate 4. -/
theorem C1_sampleRate_truncated_witness :
    (0 : ℚ) < exW1.sampleFraction ∧
    (spanEvent exW1 sdEx).sampleRate = some 4 := by
  have hf : (0 : ℚ) < exW1.sampleFraction := by norm_num [exW1]
  refine ⟨hf, ?_⟩
  have h := (C1_sampleRate_truncated exW1 sdEx annEx hf).1 (spanEvent exW1 sdEx)
    (by unfold ExportSpan; exact List.mem_cons_self _ _)
  rw [h]
  norm_num [exW1]
  decide

/-- Claim C2: when SampleFraction equals 0, the guarded division branch is
not taken: neither ExportSpan nor exportAnnotation assigns the event's
SampleRate (it stays `none`, the untouched builder default), and both
functions are total, so no failure occurs. -/
theorem C2_zero_sampleFraction_guard (e : Exporter) (sd : SpanData)
    (a : AnnotationRecord) (hf : e.sampleFraction = 0) :
    (∀ ev ∈ ExportSpan e sd, ev.sampleRate = none) ∧
    (exportAnnotationEvent e sd a).sampleRate = none := by
  refine ⟨?_, by rw [exportAnnotationEvent_sampleRate, if_neg (by simp [hf])]⟩
  intro ev hev
  rcases (mem_ExportSpan e sd ev).mp hev with h | ⟨a', _, h⟩
  · rw [h, spanEvent_sampleRate, if_neg (by simp [hf])]
  · rw [h, exportAnnotationEvent_sampleRate, if_neg (by simp [hf])]

/-- Witness for C2 at SampleFraction 0. -/
theorem C2_zero_sampleFraction_guard_witness :
    exZero.sampleFraction = 0 ∧
    (spanEvent exZero sdEx).sampleRate = none ∧
    (exportAnnotationEvent exZero sdEx annEx).sampleRate = none := by
  have hf : exZero.sampleFraction = 0 := by norm_num [exZero]
  have h := C2_zero_sampleFraction_guard exZero sdEx annEx hf
  exact ⟨hf, h.1 _ (by unfold ExportSpan; exact List.mem_cons_self _ _), h.2⟩

/-- Claim C3: when both timestamps are non-zero, DurationMs is exactly
EndTime − StartTime expressed in milliseconds (the nanosecond difference
divided by 10^6); when either timestamp is zero, DurationMs is 0 and is
not computed from the zero value. -/
theorem C3_durationMs_exact (sd : SpanData) :
    (sd.startTime ≠ 0 → sd.endTime ≠ 0 →
        1000000 * (honeycombSpan sd).durationMs
          = (sd.endTime : ℚ) - (sd.startTime : ℚ)) ∧
    ((sd.startTime = 0 ∨ sd.endTime = 0) →
        (honeycombSpan sd).durationMs = 0) := by
  constructor
  · intro h1 h2
    rw [honeycombSpan_durationMs, if_pos ⟨h1, h2⟩, mul_comm,
      div_mul_cancel₀ _ (by norm_num : (1000000 : ℚ) ≠ 0)]
    push_cast
    ring
  · intro h
    rw [honeycombSpan_durationMs, if_neg (by rcases h with h | h <;> simp [h])]

/-- Witness for C3: the sample span lasts 150 ms (150000000 ns). -/
theorem C3_durationMs_exact_witness :
    1000000 * (honeycombSpan sdEx).durationMs = 150000000 := by
  have h := (C3_durationMs_exact sdEx).1 (by norm_num [sdEx]) (by norm_num [sdEx])
  rw [h]
  norm_num [sdEx]

/-- Claim C10: with both timestamps non-zero and EndTime strictly earlier
than StartTime, DurationMs is the negative difference (EndTime − StartTime)
in milliseconds: no operation validates the timestamp ordering. -/
theorem C10_negative_duration (sd : SpanData) (h1 : sd.startTime ≠ 0)
    (h2 : sd.endTime ≠ 0) (h3 : sd.endTime < sd.startTime) :
    (honeycombSpan sd).durationMs
        = ((sd.endTime - sd.startTime : Int) : ℚ) / 1000000 ∧
    (honeycombSpan sd).durationMs < 0 := by
  have hd : (honeycombSpan sd).durationMs
      = ((sd.endTime - sd.startTime : Int) : ℚ) / 1000000 := by
    rw [honeycombSpan_durationMs, if_pos ⟨h1, h2⟩]
  refine ⟨hd, ?_⟩
  rw [hd]
  apply div_neg_of_neg_of_pos
  · exact_mod_cast (by omega : sd.endTime - sd.startTime < (0 : Int))
  · norm_num

/-- Witness for C10: a span ending 1 s before it starts. -/
theorem C10_negative_duration_witness :
    sdNeg.endTime < sdNeg.startTime ∧ (honeycombSpan sdNeg).durationMs < 0 := by
  have h := C10_negative_duration sdNeg (by norm_num [sdNeg])
    (by norm_num [sdNeg]) (by norm_num [sdNeg])
  exact ⟨by norm_num [sdNeg], h.2⟩

/-- If a key does not occur among the keys of an attribute list, filtering
that list by the key yields nothing. -/
theorem key_filter_eq_nil (l : List (String × FieldValue)) (key : String)
    (h : key ∉ l.map Prod.fst) : l.filter (fun kv => kv.1 == key) = [] := by
  rw [List.filter_eq_nil_iff]
  intro kv hkv hk
  apply h
  have hx : kv.1 = key := by simpa using hk
  rw [← hx]
  exact List.mem_map_of_mem Prod.fst hkv

/-- Claim C4: ExportSpan produces exactly one annotation-shaped event per
annotation of the span, in order (the events after the span event are
precisely the mapped annotation events), and each such event carries
`trace.annotation = true`, `name` equal to the annotation's message,
`trace.trace_id` equal to the owning span's TraceID, and `trace.parent_id`
equal to the owning span's SpanID. -/
theorem C4_annot_events (e : Exporter) (sd : SpanData) :
    (ExportSpan e sd).tail = sd.annotations.map (exportAnnotationEvent e sd) ∧
    ∀ a ∈ sd.annotations,
      ("trace.annotation", FieldValue.bool true)
          ∈ (exportAnnotationEvent e sd a).fields ∧
      ("name", FieldValue.str a.message)
          ∈ (exportAnnotationEvent e sd a).fields ∧
      ("trace.trace_id", FieldValue.str (traceIDString sd.traceID))
          ∈ (exportAnnotationEvent e sd a).fields ∧
      ("trace.parent_id", FieldValue.str (spanIDString sd.spanID))
          ∈ (exportAnnotationEvent e sd a).fields := by
  refine ⟨rfl, ?_⟩
  intro a _
  refine ⟨?_, ?_, ?_, ?_⟩ <;>
  · rw [exportAnnotationEvent_fields]
    simp [annotStructFields]

/-- Witness for C4 at the sample span's single annotation. -/
theorem C4_annot_events_witness :
    ("trace.annotation", FieldValue.bool true)
        ∈ (exportAnnotationEvent exW1 sdEx annEx).fields ∧
    ("name", FieldValue.str annEx.message)
        ∈ (exportAnnotationEvent exW1 sdEx annEx).fields := by
  have h := (C4_annot_events exW1 sdEx).2 annEx (List.mem_cons_self _ _)
  exact ⟨h.1, h.2.1⟩

/-- Claim C5: the span event carries a `trace.parent_id` field exactly when
the span's ParentSpanID is non-zero-valued, and then the field holds the
string form of ParentSpanID (assuming the span's own attributes do not use
the reserved key `trace.parent_id`). -/
theorem C5_parent_id_iff (e : Exporter) (sd : SpanData)
    (h : "trace.parent_id" ∉ sd.attributes.map Prod.fst) :
    (spanEvent e sd).fields.filter (fun kv => kv.1 == "trace.parent_id") =
      if sd.parentSpanID ≠ 0 then
        [("trace.parent_id", FieldValue.str (spanIDString sd.parentSpanID))]
      else [] := by
  have hattrs := key_filter_eq_nil sd.attributes "trace.parent_id" h
  rw [spanEvent_fields, spanStructFields_honeycombSpan]
  simp only [List.filter_append, hattrs,
    apply_ite (List.filter (fun kv : String × FieldValue => kv.1 == "trace.parent_id"))]
  simp

/-- Witness for C5: the sample span has ParentSpanID 3. -/
theorem C5_parent_id_iff_witness :
    (spanEvent exW1 sdEx).fields.filter (fun kv => kv.1 == "trace.parent_id")
      = [("trace.parent_id", FieldValue.str (spanIDString 3))] := by
  have h := C5_parent_id_iff exW1 sdEx (by simp [sdEx])
  rw [h]
  simp [sdEx]

/-- Claim C6: the span event carries a `status_code` field exactly when
Status.Code is non-zero and a `status_description` field exactly when
Status.Message is non-empty; when present the fields hold those status
values (assuming the span's attributes do not use the two reserved keys). -/
theorem C6_status_fields (e : Exporter) (sd : SpanData)
    (h1 : "status_code" ∉ sd.attributes.map Prod.fst)
    (h2 : "status_description" ∉ sd.attributes.map Prod.fst) :
    ((spanEvent e sd).fields.filter (fun kv => kv.1 == "status_code") =
        if sd.status.code ≠ 0 then
          [("status_code", FieldValue.int sd.status.code)]
        else []) ∧
    ((spanEvent e sd).fields.filter (fun kv => kv.1 == "status_description") =
        if sd.status.message ≠ "" then
          [("status_description", FieldValue.str sd.status.message)]
        else []) := by
  have ha1 := key_filter_eq_nil sd.attributes "status_code" h1
  have ha2 := key_filter_eq_nil sd.attributes "status_description" h2
  constructor
  · rw [spanEvent_fields, spanStructFields_honeycombSpan]
    simp only [List.filter_append, ha1,
      apply_ite (List.filter (fun kv : String × FieldValue => kv.1 == "status_code"))]
    simp
  · rw [spanEvent_fields, spanStructFields_honeycombSpan]
    simp only [List.filter_append, ha2,
      apply_ite (List.filter
        (fun kv : String × FieldValue => kv.1 == "status_description"))]
    simp

/-- Witness for C6: the sample span has status code 5. -/
theorem C6_status_fields_witness :
    (spanEvent exW1 sdEx).fields.filter (fun kv => kv.1 == "status_code")
      = [("status_code", FieldValue.int 5)] := by
  have h := (C6_status_fields exW1 sdEx (by simp [sdEx]) (by simp [sdEx])).1
  rw [h]
  simp [sdEx]

/-- Claim C7: with a non-empty ServiceName, every event produced for a span
(the span event and every annotation event) carries a `service_name` field
equal to ServiceName; with an empty ServiceName no `service_name` field is
present (assuming attributes do not use the reserved key `service_name`). -/
theorem C7_service_name (e : Exporter) (sd : SpanData)
    (h1 : "service_name" ∉ sd.attributes.map Prod.fst)
    (h2 : ∀ a ∈ sd.annotations, "service_name" ∉ a.attributes.map Prod.fst) :
    (e.serviceName ≠ "" →
        ∀ ev ∈ ExportSpan e sd,
          ("service_name", FieldValue.str e.serviceName) ∈ ev.fields) ∧
    (e.serviceName = "" →
        ∀ ev ∈ ExportSpan e sd, "service_name" ∉ ev.fields.map Prod.fst) := by
  constructor
  · intro hn ev hev
    rcases (mem_ExportSpan e sd ev).mp hev with hsp | ⟨a', _, hsp⟩
    · rw [hsp, spanEvent_fields]
      simp [hn]
    · rw [hsp, exportAnnotationEvent_fields]
      simp [hn]
  · intro hn ev hev
    rcases (mem_ExportSpan e sd ev).mp hev with hsp | ⟨a', ha', hsp⟩
    · rw [hsp, spanEvent_fields, spanStructFields_honeycombSpan]
      simp only [hn, List.map_append,
        apply_ite (List.map (Prod.fst : String × FieldValue → String))]
      simp [h1]
    · rw [hsp, exportAnnotationEvent_fields]
      have h3 := h2 a' ha'
      simp only [hn, annotStructFields, List.map_append,
        apply_ite (List.map (Prod.fst : String × FieldValue → String))]
      simp [h3]

/-- Witness for C7: the sample exporter has ServiceName "svc". -/
theorem C7_service_name_witness :
    ("service_name", FieldValue.str "svc") ∈ (spanEvent exW1 sdEx).fields := by
  have h := (C7_service_name exW1 sdEx (by simp [sdEx])
      (by simp [sdEx, annEx])).1 (by simp [exW1]) (spanEvent exW1 sdEx)
    (by unfold ExportSpan; exact List.mem_cons_self _ _)
  simpa [exW1] using h

/-- Claim C8: every key-value pair of a span's attribute map appears
verbatim among the span event's dynamic fields, and every key-value pair
of an annotation's attribute map appears verbatim among that annotation
event's dynamic fields. -/
theorem C8_attributes_verbatim (e : Exporter) (sd : SpanData) :
    (∀ kv ∈ sd.attributes, kv ∈ (spanEvent e sd).fields) ∧
    ∀ a ∈ sd.annotations, ∀ kv ∈ a.attributes,
      kv ∈ (exportAnnotationEvent e sd a).fields := by
  constructor
  · intro kv hkv
    rw [spanEvent_fields]
    simp [hkv]
  · intro a _ kv hkv
    rw [exportAnnotationEvent_fields]
    simp [hkv]

/-- Witness for C8 at the sample span and annotation attributes. -/
theorem C8_attributes_verbatim_witness :
    ("http.status", FieldValue.int 200) ∈ (spanEvent exW1 sdEx).fields ∧
    ("k", FieldValue.str "v") ∈ (exportAnnotationEvent exW1 sdEx annEx).fields := by
  have h := C8_attributes_verbatim exW1 sdEx
  exact ⟨h.1 _ (List.mem_cons_self _ _),
    h.2 annEx (List.mem_cons_self _ _) _ (List.mem_cons_self _ _)⟩

/-- Claim C9: when the span's StartTime is zero, the span event carries no
`timestamp` field (the `omitempty` wire schema drops the zero timestamp;
assuming attributes do not use the reserved key `timestamp`). -/
theorem C9_timestamp_omitted (e : Exporter) (sd : SpanData)
    (h0 : sd.startTime = 0) (h1 : "timestamp" ∉ sd.attributes.map Prod.fst) :
    "timestamp" ∉ (spanEvent e sd).fields.map Prod.fst := by
  rw [spanEvent_fields, spanStructFields_honeycombSpan]
  simp only [h0, List.map_append,
    apply_ite (List.map (Prod.fst : String × FieldValue → String))]
  simp [h1]

/-- Witness for C9: a span with zero StartTime and no attributes. -/
theorem C9_timestamp_omitted_witness :
    sdZero.startTime = 0 ∧
    "timestamp" ∉ (spanEvent exW1 sdZero).fields.map Prod.fst :=
  ⟨rfl, C9_timestamp_omitted exW1 sdZero rfl (by simp [sdZero])⟩

end Honeycomb
